import Mathlib

set_option maxRecDepth 8192

/-!
Shallow embedding of `src/app.py`, a LINE webhook translator bot.
Pure Python string/dict logic is translated to executable Lean functions;
the OpenAI call is abstracted as an oracle parameter; the per-message
handler `on_message` is modelled as a function from (oracle, event source,
message text, stored pairs) to a `Result` recording the reply text, the
delivered (truncated) text, the updated pair store, and how many times the
external translator was invoked.
-/

namespace TranslatorBot

/-- Python whitespace for `str.strip()` / regex `\s` (ASCII subset, which is
all the bot's inputs exercise). -/
def isPySpace (c : Char) : Bool :=
  c = ' ' || c = '\t' || c = '\n' || c = '\r' || c = '\x0b' || c = '\x0c'

/-- Python `str.strip()`. -/
def py_strip (s : String) : String :=
  ⟨((s.data.dropWhile isPySpace).reverse.dropWhile isPySpace).reverse⟩

/-- Python `str.lower()` (ASCII case folding; the bot's tokens are
`[A-Za-z가-힣-]`, on which this coincides with Python). -/
def py_lower (s : String) : String := ⟨s.data.map Char.toLower⟩

/-- `RE_THAI = re.compile(r"[฀-๿]")`, app.py line 105. -/
def isThaiChar (c : Char) : Bool := 0x0E00 ≤ c.toNat && c.toNat ≤ 0x0E7F

/-- `RE_HANGUL = re.compile(r"[ᄀ-ᇿ㄰-㆏가-힣]")`,
app.py line 106. -/
def isHangulChar (c : Char) : Bool :=
  (0x1100 ≤ c.toNat && c.toNat ≤ 0x11FF) ||
  (0x3130 ≤ c.toNat && c.toNat ≤ 0x318F) ||
  (0xAC00 ≤ c.toNat && c.toNat ≤ 0xD7A3)

/-- `detect_lang`, app.py lines 108-114: Thai range first, then Hangul,
else `None`. -/
def detect_lang (text : String) : Option String :=
  if text.data.any isThaiChar then some "th"
  else if text.data.any isHangulChar then some "ko"
  else none

/-- `LANG_ALIASES`, app.py lines 79-100 (Python dict as association list). -/
def LANG_ALIASES : List (String × String) :=
  [("ko", "ko"), ("한국어", "ko"), ("korean", "ko"),
   ("th", "th"), ("태국어", "th"), ("thai", "th"),
   ("en", "en"), ("영어", "en"), ("english", "en"),
   ("ja", "ja"), ("일본어", "ja"), ("japanese", "ja"),
   ("zh", "zh"), ("중국어", "zh"), ("chinese", "zh"), ("zh-cn", "zh"), ("zh-tw", "zh"),
   ("es", "es"), ("스페인어", "es"), ("spanish", "es"),
   ("fr", "fr"), ("프랑스어", "fr"), ("french", "fr"),
   ("de", "de"), ("독일어", "de"), ("german", "de"),
   ("it", "it"), ("이탈리아어", "it"), ("italian", "it"),
   ("ru", "ru"), ("러시아어", "ru"), ("russian", "ru"),
   ("vi", "vi"), ("베트남어", "vi"), ("vietnamese", "vi"),
   ("id", "id"), ("인도네시아어", "id"), ("indonesian", "id"),
   ("ms", "ms"), ("말레이어", "ms"), ("malay", "ms"),
   ("ar", "ar"), ("아랍어", "ar"), ("arabic", "ar"),
   ("hi", "hi"), ("힌디어", "hi"), ("hindi", "hi"),
   ("pt", "pt"), ("포르투갈어", "pt"), ("portuguese", "pt"),
   ("tr", "tr"), ("터키어", "tr"), ("turkish", "tr"),
   ("fa", "fa"), ("페르시아어", "fa"), ("persian", "fa"), ("farsi", "fa"),
   ("he", "he"), ("히브리어", "he"), ("hebrew", "he"),
   ("fil", "fil"), ("tl", "fil"), ("타갈로그어", "fil"), ("tagalog", "fil")]

/-- `normalize_lang`, app.py lines 175-177: strip, lowercase, dict lookup. -/
def normalize_lang (token : String) : Option String :=
  (LANG_ALIASES.find? (fun kv => kv.1 == py_lower (py_strip token))).map (fun kv => kv.2)

/-!
`CMD_REGEX`, app.py lines 170-173:
  `^\s*[!/]*(?:lang|언어|설정)\s+([A-Za-z가-힣\-]+)(?:\s*[->→~]\s*|\s+)([A-Za-z가-힣\-]+)\s*$`
with `re.IGNORECASE`, matched via `.match` (anchored at the start).
The matcher below implements this concrete pattern with the regex engine's
greedy-with-backtracking semantics: group 1 is tried longest first; for each
candidate the separator alternative `\s*[->→~]\s*` is tried before `\s+`;
group 2 can only succeed on its maximal run (anything shorter leaves a
non-space token character before `\s*$`).
-/

/-- Character class `[A-Za-z가-힣\-]` of the two token groups. -/
def isTokChar (c : Char) : Bool :=
  ('A' ≤ c && c ≤ 'Z') || ('a' ≤ c && c ≤ 'z') ||
  ('가' ≤ c && c ≤ '힣') || c = '-'

/-- Separator character class `[->→~]` (literal `-`, `>`, `→`, `~`). -/
def isSepChar (c : Char) : Bool :=
  c = '-' || c = '>' || c = '→' || c = '~'

/-- Group 2 followed by `\s*$`: only the maximal token run can match. -/
def tryGroup2End (l : List Char) : Option (List Char) :=
  let run2 := l.takeWhile isTokChar
  let rest2 := l.dropWhile isTokChar
  if run2 ≠ [] && rest2.all isPySpace then some run2 else none

/-- The separator and tail of the pattern: `(?:\s*[->→~]\s*|\s+)` then
group 2 then `\s*$`, alternatives in the regex's order. -/
def trySep (l : List Char) : Option (List Char) :=
  let la := l.dropWhile isPySpace
  let resA :=
    match la with
    | c :: tl => if isSepChar c then tryGroup2End (tl.dropWhile isPySpace) else none
    | [] => none
  match resA with
  | some g2 => some g2
  | none =>
    match l with
    | c :: _ => if isPySpace c then tryGroup2End (l.dropWhile isPySpace) else none
    | [] => none

/-- Backtracking over group 1's length (greedy: longest candidate first).
`run` is the maximal token run at the current position, `rest0` what
follows it. -/
def tryFrom (run rest0 : List Char) : Nat → Option (List Char × List Char)
  | 0 => none
  | Nat.succ k =>
    match trySep (run.drop (Nat.succ k) ++ rest0) with
    | some g2 => some (run.take (Nat.succ k), g2)
    | none => tryFrom run rest0 k

/-- The keyword alternation `(?:lang|언어|설정)` (IGNORECASE affects only
`lang`); returns the remaining input on a match. -/
def stripKeyword (l : List Char) : Option (List Char) :=
  if (l.take 4).map Char.toLower = "lang".data then some (l.drop 4)
  else if l.take 2 = "언어".data then some (l.drop 2)
  else if l.take 2 = "설정".data then some (l.drop 2)
  else none

/-- `CMD_REGEX.match(text)` restricted to the two capture groups
(as raw strings), `None` when the pattern does not match. -/
def cmd_match (text : String) : Option (String × String) :=
  let l0 := text.data.dropWhile isPySpace
  let l1 := l0.dropWhile (fun c => c = '!' || c = '/')
  match stripKeyword l1 with
  | none => none
  | some l2 =>
    match l2 with
    | [] => none
    | c :: _ =>
      if isPySpace c then
        let l3 := l2.dropWhile isPySpace
        let run := l3.takeWhile isTokChar
        let rest0 := l3.dropWhile isTokChar
        (tryFrom run rest0 run.length).map (fun g => (⟨g.1⟩, ⟨g.2⟩))
      else none

/-- `parse_lang_command`, app.py lines 179-188. -/
def parse_lang_command (text : String) : Option (String × String) :=
  match cmd_match text with
  | none => none
  | some (a_raw, b_raw) =>
    match normalize_lang a_raw, normalize_lang b_raw with
    | some a, some b => if a ≠ b then some (a, b) else none
    | some _, none => none
    | none, _ => none

/-- `build_system_prompt`, app.py lines 193-198. -/
def build_system_prompt (src tgt : String) : String :=
  "역할: 실시간 통역사. 소스 " ++ src ++ " → 타겟 " ++ tgt ++ ".\n" ++
  "원문의 말투/존댓말·반말과 뉘앙스를 유지하되, 타겟 언어의 자연스러운 구어체로 번역해.\n" ++
  "불필요한 설명/따옴표/괄호 없이 '번역문만' 출력."

/-- The external OpenAI chat-completions call, abstracted: given the system
prompt and the user text it either returns the (optional) message content or
fails (exception / timeout). -/
abbrev Oracle := String → String → Except Unit (Option String)

/-- `translate_text`, app.py lines 203-213: one external call, then
`(content or "").strip()`; an exception propagates to the caller. -/
def translate_text (oai : Oracle) (user_text src tgt : String) : Except Unit String :=
  (oai (build_system_prompt src tgt) user_text).map (fun content => py_strip (content.getD ""))

/-- `FLAG`, app.py lines 216-221. -/
def FLAG : List (String × String) :=
  [("ko", "🇰🇷"), ("th", "🇹🇭"), ("en", "🇺🇸"), ("ja", "🇯🇵"), ("zh", "🇨🇳"),
   ("es", "🇪🇸"), ("fr", "🇫🇷"), ("de", "🇩🇪"), ("it", "🇮🇹"), ("ru", "🇷🇺"),
   ("vi", "🇻🇳"), ("id", "🇮🇩"), ("ms", "🇲🇾"), ("ar", "🇸🇦"), ("hi", "🇮🇳"),
   ("pt", "🇵🇹"), ("tr", "🇹🇷"), ("fa", "🇮🇷"), ("he", "🇮🇱"), ("fil", "🇵🇭")]

/-- `FLAG.get(x, x)`. -/
def flag_get (x : String) : String :=
  ((FLAG.find? (fun kv => kv.1 == x)).map (fun kv => kv.2)).getD x

/-- `build_tag`, app.py lines 215-222. -/
def build_tag (src tgt : String) : String :=
  flag_get src ++ "→" ++ flag_get tgt

/-- The decoded `event.source` of a LINE message event: its `type` attribute
and the scope-id attributes read by `get_chat_key` (the code's
snake_case/camelCase `getattr` fallback collapses to one optional field). -/
structure EventSource where
  stype : Option String
  group_id : Option String
  room_id : Option String
  user_id : Option String
deriving DecidableEq

/-- Python f-string interpolation of a possibly-`None` value. -/
def py_fstr (o : Option String) : String :=
  match o with
  | some s => s
  | none => "None"

/-- `get_chat_key`, app.py lines 142-153. -/
def get_chat_key (s : EventSource) : String :=
  if s.stype = some "group" then "group:" ++ py_fstr s.group_id
  else if s.stype = some "room" then "room:" ++ py_fstr s.room_id
  else "user:" ++ py_fstr s.user_id

/-- The `PAIRS` dict (chat key -> stored `[a, b]` list); a Python dict is
modelled as an association list, assignment as override. -/
abbrev Pairs := List (String × (String × String))

/-- `set_pair`, app.py lines 155-158 (`PAIRS[chat_key] = [a_code, b_code]`;
the durable `_save_pairs` flush is an external effect with no bearing on the
in-memory mapping). -/
def set_pair (pairs : Pairs) (chat_key a_code b_code : String) : Pairs :=
  (chat_key, (a_code, b_code)) :: pairs.filter (fun kv => !(kv.1 == chat_key))

/-- `get_pair`, app.py lines 160-165 (every stored value is a 2-list by
construction of `set_pair`, so the `len == 2` check always passes). -/
def get_pair (pairs : Pairs) (chat_key : String) : Option (String × String) :=
  (pairs.find? (fun kv => kv.1 == chat_key)).map (fun kv => kv.2)

/-- The fixed failure reply of the `except` branch, app.py line 285. -/
def err_msg : String := "번역 중 오류가 발생했어요. 잠시 후 다시 시도해주세요."

/-- The language-setting confirmation reply, app.py line 257. -/
def lang_set_msg (a b : String) : String :=
  "언어 설정 저장됨: " ++ a ++ " ↔ " ++ b ++
  "\n이제 이 채팅방에서는 두 언어 간 자동 번역을 합니다."

/-- `_reply`, app.py lines 292-302: the delivered text is `text[:5000]`
(Python slicing by code point). -/
def _reply (text : String) : String := ⟨text.data.take 5000⟩

/-- What one `on_message` invocation produces: the reply text composed by the
handler, the text actually handed to the LINE API (`_reply` truncation),
the pair store afterwards, and how many times the external translator was
invoked while handling this message. -/
structure Result where
  reply : String
  sent : String
  pairs : Pairs
  translatorCalls : Nat
deriving DecidableEq

/-- Step 2 of `on_message` (lines 261-266): fetch this chat's pair, storing
the `("ko", "th")` default first if absent. -/
def resolve_pair (pairs : Pairs) (chat_key : String) : (String × String) × Pairs :=
  match get_pair pairs chat_key with
  | some p => (p, pairs)
  | none => (("ko", "th"), set_pair pairs chat_key "ko" "th")

/-- Step 3 of `on_message` (lines 270-276): pick the direction from the
detected language; detection failure falls back to `(a, b)`. -/
def resolve_direction (a b : String) (detected : Option String) : String × String :=
  match detected with
  | some d => if d = a then (a, b) else if d = b then (b, a) else (a, b)
  | none => (a, b)

/-- Step 4 of `on_message` (lines 278-287): one translator call; on success
the reply is the direction tag plus the output, on exception the fixed
failure message. -/
def run_translation (oai : Oracle) (user_text s t : String) (pairs2 : Pairs) : Result :=
  match translate_text oai user_text s t with
  | Except.ok out =>
    { reply := build_tag s t ++ "\n" ++ out,
      sent := _reply (build_tag s t ++ "\n" ++ out),
      pairs := pairs2, translatorCalls := 1 }
  | Except.error _ =>
    { reply := err_msg, sent := _reply err_msg,
      pairs := pairs2, translatorCalls := 1 }

/-- `on_message`, app.py lines 246-287. -/
def on_message (oai : Oracle) (src : EventSource) (text : String) (pairs : Pairs) : Result :=
  let user_text := py_strip text
  let chat_key := get_chat_key src
  match parse_lang_command user_text with
  | some (a, b) =>
    { reply := lang_set_msg a b, sent := _reply (lang_set_msg a b),
      pairs := set_pair pairs chat_key a b, translatorCalls := 0 }
  | none =>
    let rp := resolve_pair pairs chat_key
    let st := resolve_direction rp.1.1 rp.1.2 (detect_lang user_text)
    run_translation oai user_text st.1 st.2 rp.2

/-- A mocked translator that always succeeds with content `s`. -/
def oracle_const (s : String) : Oracle := fun _ _ => Except.ok (some s)

/-- A mocked translator that always throws. -/
def oracle_fail : Oracle := fun _ _ => Except.error ()

/-- A sample one-to-one event source. -/
def src_user : EventSource := ⟨some "user", none, none, some "U"⟩

/-- The scope-type discriminator of `get_chat_key`'s three branches
(group / room / one-to-one fallback). -/
def scope_type (s : EventSource) : Nat :=
  if s.stype = some "group" then 0 else if s.stype = some "room" then 1 else 2

example : parse_lang_command "!lang ko-th" = some ("ko", "th") := by decide
example : parse_lang_command "언어 한국어-태국어" = some ("ko", "th") := by decide
example : parse_lang_command "/lang en ja" = some ("en", "ja") := by decide
example : parse_lang_command "!lang ko-ko" = none := by decide
example : parse_lang_command "!lang xx yy" = none := by decide
example : parse_lang_command "hello" = none := by decide
example : parse_lang_command "" = none := by decide
example : detect_lang "안녕하세요" = some "ko" := by decide
example : detect_lang "สวัสดี" = some "th" := by decide
example : detect_lang "hello" = none := by decide

example : (on_message (oracle_const "X") src_user "hello" []).reply = "🇰🇷→🇹🇭\nX" := by decide
example : (on_message (oracle_const "X") src_user "hello" []).translatorCalls = 1 := by decide
example : (on_message (oracle_const "X") src_user "hello" []).pairs = [("user:U", ("ko", "th"))] := by decide
example : (on_message (oracle_const "X") src_user "!lang ko-th" []).translatorCalls = 0 := by decide
example : (on_message oracle_fail src_user "hi" []).reply = err_msg := by decide
example : (on_message (oracle_const "X") src_user "สวัสดี" []).reply = "🇹🇭→🇰🇷\nX" := by decide

/-! ## Helper lemmas -/

theorem str_data_append (a b : String) : (a ++ b).data = a.data ++ b.data := rfl

theorem _reply_length (t : String) : (_reply t).length ≤ 5000 := by
  show (t.data.take 5000).length ≤ 5000
  simp [List.length_take]

theorem run_translation_calls (oai : Oracle) (ut s t : String) (p : Pairs) :
    (run_translation oai ut s t p).translatorCalls = 1 := by
  unfold run_translation; split <;> rfl

theorem run_translation_pairs (oai : Oracle) (ut s t : String) (p : Pairs) :
    (run_translation oai ut s t p).pairs = p := by
  unfold run_translation; split <;> rfl

theorem run_translation_sent (oai : Oracle) (ut s t : String) (p : Pairs) :
    (run_translation oai ut s t p).sent = _reply (run_translation oai ut s t p).reply := by
  unfold run_translation; split <;> rfl

theorem run_translation_ok (oai : Oracle) (ut s t : String) (p : Pairs) (out : String)
    (h : translate_text oai ut s t = Except.ok out) :
    (run_translation oai ut s t p).reply = build_tag s t ++ "\n" ++ out := by
  unfold run_translation; rw [h]

theorem run_translation_err (oai : Oracle) (ut s t : String) (p : Pairs)
    (h : translate_text oai ut s t = Except.error ()) :
    (run_translation oai ut s t p).reply = err_msg := by
  unfold run_translation; rw [h]

theorem run_translation_shape (oai : Oracle) (ut s t : String) (p : Pairs) :
    (∃ out, (run_translation oai ut s t p).reply = build_tag s t ++ "\n" ++ out) ∨
    (run_translation oai ut s t p).reply = err_msg := by
  unfold run_translation
  split
  · exact Or.inl ⟨_, rfl⟩
  · exact Or.inr rfl

theorem resolve_pair_some (pairs : Pairs) (k : String) (p : String × String)
    (h : get_pair pairs k = some p) : resolve_pair pairs k = (p, pairs) := by
  unfold resolve_pair; rw [h]

theorem resolve_pair_none (pairs : Pairs) (k : String)
    (h : get_pair pairs k = none) :
    resolve_pair pairs k = (("ko", "th"), set_pair pairs k "ko" "th") := by
  unfold resolve_pair; rw [h]

theorem on_message_translation (oai : Oracle) (src : EventSource) (text : String) (pairs : Pairs)
    (hp : parse_lang_command (py_strip text) = none) :
    on_message oai src text pairs =
      run_translation oai (py_strip text)
        (resolve_direction (resolve_pair pairs (get_chat_key src)).1.1
          (resolve_pair pairs (get_chat_key src)).1.2 (detect_lang (py_strip text))).1
        (resolve_direction (resolve_pair pairs (get_chat_key src)).1.1
          (resolve_pair pairs (get_chat_key src)).1.2 (detect_lang (py_strip text))).2
        (resolve_pair pairs (get_chat_key src)).2 := by
  simp only [on_message]
  rw [hp]

theorem on_message_command (oai : Oracle) (src : EventSource) (text : String) (pairs : Pairs)
    (a b : String) (hp : parse_lang_command (py_strip text) = some (a, b)) :
    on_message oai src text pairs =
      { reply := lang_set_msg a b, sent := _reply (lang_set_msg a b),
        pairs := set_pair pairs (get_chat_key src) a b, translatorCalls := 0 } := by
  simp only [on_message]
  rw [hp]

theorem on_message_sent (oai : Oracle) (src : EventSource) (text : String) (pairs : Pairs) :
    (on_message oai src text pairs).sent = _reply (on_message oai src text pairs).reply := by
  cases hp : parse_lang_command (py_strip text) with
  | none => rw [on_message_translation oai src text pairs hp]; exact run_translation_sent ..
  | some ab => rw [on_message_command oai src text pairs ab.1 ab.2 (by rw [hp])]

theorem get_chat_key_head (s : EventSource) :
    (get_chat_key s).data.head? =
      some (if s.stype = some "group" then 'g'
            else if s.stype = some "room" then 'r' else 'u') := by
  unfold get_chat_key
  by_cases h1 : s.stype = some "group" <;> by_cases h2 : s.stype = some "room" <;>
    simp only [h1, h2, if_true, if_false, reduceIte] <;> rfl

/-! ## Claim theorems -/

/-- C2: `detect_lang` returns `"th"` exactly when the text contains a
character of the Thai script range; otherwise `"ko"` exactly when it
contains a character of the Hangul ranges; in particular a text containing
both scripts classifies as `"th"`. The classifier is a pure Lean function
of the text alone, so it is side-effect free by construction. -/
theorem detect_lang_spec (t : String) :
    (detect_lang t = some "th" ↔ t.data.any isThaiChar = true) ∧
    (detect_lang t = some "ko" ↔
      (t.data.any isThaiChar = false ∧ t.data.any isHangulChar = true)) ∧
    (t.data.any isThaiChar = true → t.data.any isHangulChar = true →
      detect_lang t = some "th") := by
  unfold detect_lang
  cases h1 : t.data.any isThaiChar <;> cases h2 : t.data.any isHangulChar <;>
    simp [h1, h2]

/-- Witness for C2: "ก가" contains both a Thai and a Hangul character and
classifies as Thai. -/
theorem detect_lang_spec_witness :
    ("ก가".data.any isThaiChar = true ∧ "ก가".data.any isHangulChar = true) ∧
    detect_lang "ก가" = some "th" :=
  ⟨⟨by decide, by decide⟩, (detect_lang_spec "ก가").2.2 (by decide) (by decide)⟩

/-- C7: two message events whose conversation scopes differ in type
(group vs. room vs. one-to-one) derive distinct chat keys, even when the
underlying scope ids are the same string: each branch of `get_chat_key`
prepends a distinct literal. -/
theorem get_chat_key_types_distinct (x y : EventSource)
    (h : scope_type x ≠ scope_type y) :
    get_chat_key x ≠ get_chat_key y := by
  intro he
  apply h
  have hh := congrArg (fun s : String => s.data.head?) he
  simp only [get_chat_key_head, Option.some.injEq] at hh
  unfold scope_type
  by_cases h1 : x.stype = some "group" <;> by_cases h2 : x.stype = some "room" <;>
    by_cases h3 : y.stype = some "group" <;> by_cases h4 : y.stype = some "room" <;>
    simp_all

/-- Witness for C7: a group scope and a room scope with the same id "7"
get different keys. -/
theorem get_chat_key_types_distinct_witness :
    scope_type ⟨some "group", some "7", none, none⟩ ≠
      scope_type ⟨some "room", none, some "7", none⟩ ∧
    get_chat_key ⟨some "group", some "7", none, none⟩ ≠
      get_chat_key ⟨some "room", none, some "7", none⟩ :=
  ⟨by decide, get_chat_key_types_distinct _ _ (by decide)⟩

/-- C10: for every message the delivered text is `_reply` of the composed
reply, i.e. its first 5000 characters, and hence has length at most 5000. -/
theorem delivered_reply_truncated (oai : Oracle) (src : EventSource)
    (text : String) (pairs : Pairs) :
    (on_message oai src text pairs).sent =
      _reply (on_message oai src text pairs).reply ∧
    (on_message oai src text pairs).sent.length ≤ 5000 := by
  have h := on_message_sent oai src text pairs
  refine ⟨h, ?_⟩
  rw [h]
  exact _reply_length _

/-- C1 counterexample: a brand-new conversation (no stored pair, so no
previously recorded language of any kind) receives "hello", which contains
no script character (`detect_lang` = none, the "unknown" classification).
The claim says direction resolution then returns `None` and the user gets a
guidance message instead of a translation; the code instead resolves to the
default direction, invokes the translator once, and replies with a tagged
translation. -/
theorem unknown_new_conversation_translates_cex :
    detect_lang (py_strip "hello") = none ∧
    get_pair ([] : Pairs) (get_chat_key src_user) = none ∧
    (on_message (oracle_const "X") src_user "hello" []).translatorCalls = 1 ∧
    (on_message (oracle_const "X") src_user "hello" []).reply = "🇰🇷→🇹🇭\nX" := by
  decide

/-- C1 amended: on an unknown classification the handler always resolves the
direction to `(a, b)` — the stored pair in stored order (the default
`("ko", "th")` for a fresh chat) — and translates in that direction;
resolution never returns `None` and no guidance message exists. -/
theorem unknown_direction_defaults (oai : Oracle) (src : EventSource)
    (text : String) (pairs : Pairs) (a b : String)
    (hp : parse_lang_command (py_strip text) = none)
    (hd : detect_lang (py_strip text) = none)
    (hg : get_pair pairs (get_chat_key src) = some (a, b)) :
    resolve_direction a b none = (a, b) ∧
    (on_message oai src text pairs).translatorCalls = 1 ∧
    (on_message oai src text pairs).pairs = pairs ∧
    (∀ out, translate_text oai (py_strip text) a b = Except.ok out →
      (on_message oai src text pairs).reply = build_tag a b ++ "\n" ++ out) ∧
    (translate_text oai (py_strip text) a b = Except.error () →
      (on_message oai src text pairs).reply = err_msg) := by
  have hm : on_message oai src text pairs =
      run_translation oai (py_strip text) a b pairs := by
    rw [on_message_translation oai src text pairs hp,
      resolve_pair_some pairs (get_chat_key src) (a, b) hg, hd]
    rfl
  refine ⟨rfl, ?_, ?_, ?_, ?_⟩
  · rw [hm]; exact run_translation_calls ..
  · rw [hm]; exact run_translation_pairs ..
  · intro out hok; rw [hm]; exact run_translation_ok oai (py_strip text) a b pairs out hok
  · intro herr; rw [hm]; exact run_translation_err oai (py_strip text) a b pairs herr

/-- Witness for the amended C1 at a chat whose pair is already stored. -/
theorem unknown_direction_defaults_witness :
    (parse_lang_command (py_strip "hello") = none ∧
     detect_lang (py_strip "hello") = none ∧
     get_pair [("user:U", ("ko", "th"))] (get_chat_key src_user) = some ("ko", "th")) ∧
    (on_message (oracle_const "X") src_user "hello"
      [("user:U", ("ko", "th"))]).translatorCalls = 1 :=
  ⟨⟨by decide, by decide, by decide⟩,
    (unknown_direction_defaults (oracle_const "X") src_user "hello"
      [("user:U", ("ko", "th"))] "ko" "th" (by decide) (by decide) (by decide)).2.1⟩

/-- C3 counterexample: the exact same input "hi" is sent twice in the same
conversation; the claim says the second is answered from the cache without
invoking the translator again, but the code invokes the external translator
once per message (there is no cache at all), so the second handling also
performs a translator call. -/
theorem resend_not_cached_cex :
    (on_message (oracle_const "X") src_user "hi" []).translatorCalls = 1 ∧
    (on_message (oracle_const "X") src_user "hi"
      (on_message (oracle_const "X") src_user "hi" []).pairs).translatorCalls = 1 ∧
    (on_message (oracle_const "X") src_user "hi"
      (on_message (oracle_const "X") src_user "hi" []).pairs).translatorCalls ≠ 0 := by
  decide

/-- C3 amended: the program has no translation cache; every non-command
message — including an exact resend of the same text in the same
conversation — invokes the external translator exactly once. -/
theorem resend_invokes_translator_again (oai : Oracle) (src : EventSource)
    (text : String) (pairs : Pairs)
    (hp : parse_lang_command (py_strip text) = none) :
    (on_message oai src text pairs).translatorCalls = 1 ∧
    (on_message oai src text
      (on_message oai src text pairs).pairs).translatorCalls = 1 := by
  constructor
  · rw [on_message_translation oai src text pairs hp]
    exact run_translation_calls ..
  · rw [on_message_translation oai src text _ hp]
    exact run_translation_calls ..

/-- Witness for the amended C3. -/
theorem resend_invokes_translator_again_witness :
    parse_lang_command (py_strip "hi") = none ∧
    ((on_message (oracle_const "X") src_user "hi" []).translatorCalls = 1 ∧
     (on_message (oracle_const "X") src_user "hi"
       (on_message (oracle_const "X") src_user "hi" []).pairs).translatorCalls = 1) :=
  ⟨by decide,
    resend_invokes_translator_again (oracle_const "X") src_user "hi" [] (by decide)⟩

/-- C4 counterexample: the input "abcdefgh" has trimmed length 8 and the
mocked translator returns the empty string, so by the claim's heuristic
(`lo = 0 < max 3 (0.25 * 8)`) exactly one retry should occur and the
translator should be invoked twice; the code invokes it exactly once
(there is no output guard or retry anywhere in `app.py`). -/
theorem no_retry_on_implausible_output_cex :
    8 ≤ (py_strip "abcdefgh").length ∧
    (on_message (oracle_const "") src_user "abcdefgh" []).reply = "🇰🇷→🇹🇭\n" ∧
    (on_message (oracle_const "") src_user "abcdefgh" []).translatorCalls = 1 ∧
    (on_message (oracle_const "") src_user "abcdefgh" []).translatorCalls ≠ 2 := by
  decide

/-- C4 amended: there is no output-length guard; for every non-command
message (of any input length, including length ≥ 8 with an arbitrarily
implausible translator output) the translator is invoked exactly once. -/
theorem no_retry_guard (oai : Oracle) (src : EventSource) (text : String)
    (pairs : Pairs) (_h8 : 8 ≤ (py_strip text).length)
    (hp : parse_lang_command (py_strip text) = none) :
    (on_message oai src text pairs).translatorCalls = 1 := by
  rw [on_message_translation oai src text pairs hp]
  exact run_translation_calls ..

/-- Witness for the amended C4 with an empty-output translator. -/
theorem no_retry_guard_witness :
    (8 ≤ (py_strip "abcdefgh").length ∧
     parse_lang_command (py_strip "abcdefgh") = none) ∧
    (on_message (oracle_const "") src_user "abcdefgh" []).translatorCalls = 1 :=
  ⟨⟨by decide, by decide⟩,
    no_retry_guard (oracle_const "") src_user "abcdefgh" [] (by decide) (by decide)⟩

/-- C5 counterexample: a brand-new conversation sends "hello" and the
external translation call throws. The claim says the conversation state is
left unchanged; the code has already persisted the default pair
`("ko", "th")` for this chat before attempting the translation (app.py
lines 261-266), so the stored state after the failing message differs from
the initial (empty) state. The fixed failure reply itself is delivered. -/
theorem error_path_state_created_cex :
    get_pair ([] : Pairs) (get_chat_key src_user) = none ∧
    (on_message oracle_fail src_user "hello" []).reply = err_msg ∧
    (on_message oracle_fail src_user "hello" []).pairs =
      [("user:U", ("ko", "th"))] ∧
    (on_message oracle_fail src_user "hello" []).pairs ≠ ([] : Pairs) := by
  decide

/-- C5 amended: when the external translation call throws, the user receives
the fixed failure message, the handler does not crash, and nothing is
written after the failure (there is no cache at all); for a conversation
whose pair is already stored the state is unchanged — but a brand-new
conversation has its default pair persisted before the translation attempt,
so its state does change even on a failing message. -/
theorem translate_failure_fixed_reply (oai : Oracle) (src : EventSource)
    (text : String) (pairs : Pairs) (a b : String)
    (hp : parse_lang_command (py_strip text) = none)
    (hg : get_pair pairs (get_chat_key src) = some (a, b))
    (hfail : ∀ sp ut, oai sp ut = Except.error ()) :
    (on_message oai src text pairs).reply = err_msg ∧
    (on_message oai src text pairs).sent = _reply err_msg ∧
    (on_message oai src text pairs).pairs = pairs ∧
    (on_message oai src text pairs).translatorCalls = 1 := by
  have hm : on_message oai src text pairs =
      run_translation oai (py_strip text)
        (resolve_direction a b (detect_lang (py_strip text))).1
        (resolve_direction a b (detect_lang (py_strip text))).2 pairs := by
    rw [on_message_translation oai src text pairs hp,
      resolve_pair_some pairs (get_chat_key src) (a, b) hg]
  have ht : ∀ s t, translate_text oai (py_strip text) s t = Except.error () := by
    intro s t
    unfold translate_text
    rw [hfail]
    rfl
  have hr : (on_message oai src text pairs).reply = err_msg := by
    rw [hm]; exact run_translation_err _ _ _ _ _ (ht _ _)
  refine ⟨hr, ?_, ?_, ?_⟩
  · rw [on_message_sent, hr]
  · rw [hm]; exact run_translation_pairs ..
  · rw [hm]; exact run_translation_calls ..

/-- Witness for the amended C5 at a chat whose pair is already stored. -/
theorem translate_failure_fixed_reply_witness :
    (parse_lang_command (py_strip "hello") = none ∧
     get_pair [("user:U", ("ko", "th"))] (get_chat_key src_user) = some ("ko", "th")) ∧
    ((on_message oracle_fail src_user "hello" [("user:U", ("ko", "th"))]).reply = err_msg ∧
     (on_message oracle_fail src_user "hello" [("user:U", ("ko", "th"))]).pairs =
       [("user:U", ("ko", "th"))]) :=
  ⟨⟨by decide, by decide⟩,
    ⟨(translate_failure_fixed_reply oracle_fail src_user "hello"
        [("user:U", ("ko", "th"))] "ko" "th" (by decide) (by decide)
        (fun _ _ => rfl)).1,
     (translate_failure_fixed_reply oracle_fail src_user "hello"
        [("user:U", ("ko", "th"))] "ko" "th" (by decide) (by decide)
        (fun _ _ => rfl)).2.2.1⟩⟩

/-- C6 counterexample: a whitespace-only first message in a brand-new
conversation. The claim says the handler echoes the verbatim input, does
not invoke the translator, and creates no conversation state; the code
instead trims the input to "", invokes the translator on it, replies with
a tagged translation (not the verbatim input), and persists the default
pair for the new chat. -/
theorem whitespace_input_translated_cex :
    py_strip "  " = "" ∧
    (on_message (oracle_const "X") src_user "  " []).translatorCalls = 1 ∧
    (on_message (oracle_const "X") src_user "  " []).reply ≠ "  " ∧
    (on_message (oracle_const "X") src_user "  " []).pairs ≠ ([] : Pairs) := by
  decide

/-- C6 amended: an empty or whitespace-only message is not short-circuited:
it is trimmed to "" and passed to the translator like any other text in the
default direction `("ko", "th")`, and a brand-new conversation gets the
default pair persisted. -/
theorem empty_input_translated (oai : Oracle) (src : EventSource)
    (text : String) (pairs : Pairs)
    (hempty : py_strip text = "")
    (hnew : get_pair pairs (get_chat_key src) = none) :
    (on_message oai src text pairs).translatorCalls = 1 ∧
    (on_message oai src text pairs).pairs =
      set_pair pairs (get_chat_key src) "ko" "th" ∧
    (∀ out, translate_text oai "" "ko" "th" = Except.ok out →
      (on_message oai src text pairs).reply = build_tag "ko" "th" ++ "\n" ++ out) ∧
    (translate_text oai "" "ko" "th" = Except.error () →
      (on_message oai src text pairs).reply = err_msg) := by
  have hp : parse_lang_command (py_strip text) = none := by rw [hempty]; decide
  have hm : on_message oai src text pairs =
      run_translation oai "" "ko" "th"
        (set_pair pairs (get_chat_key src) "ko" "th") := by
    rw [on_message_translation oai src text pairs hp,
      resolve_pair_none pairs (get_chat_key src) hnew, hempty]
    rfl
  refine ⟨?_, ?_, ?_, ?_⟩
  · rw [hm]; exact run_translation_calls ..
  · rw [hm]; exact run_translation_pairs ..
  · intro out hok; rw [hm]; exact run_translation_ok _ _ _ _ _ _ hok
  · intro herr; rw [hm]; exact run_translation_err _ _ _ _ _ herr

/-- Witness for the amended C6 on a whitespace-only first message. -/
theorem empty_input_translated_witness :
    (py_strip "  " = "" ∧ get_pair ([] : Pairs) (get_chat_key src_user) = none) ∧
    ((on_message (oracle_const "X") src_user "  " []).translatorCalls = 1 ∧
     (on_message (oracle_const "X") src_user "  " []).pairs =
       set_pair [] (get_chat_key src_user) "ko" "th") :=
  ⟨⟨by decide, by decide⟩,
    ⟨(empty_input_translated (oracle_const "X") src_user "  " []
        (by decide) (by decide)).1,
     (empty_input_translated (oracle_const "X") src_user "  " []
        (by decide) (by decide)).2.1⟩⟩

theorem tag_contains_arrow (s t : String) : '→' ∈ (build_tag s t).data := by
  unfold build_tag
  rw [str_data_append, str_data_append]
  exact List.mem_append.2 (Or.inl (List.mem_append.2 (Or.inr (by decide))))

/-- C8 counterexample: for the inbound message "!lang ko-th" the handler
replies with the language-setting confirmation, which is none of the
claim's five reply kinds: it is neither the verbatim echo of the input nor
the fixed apology, and it cannot be a (fresh or cached) translation with a
direction tag because every `build_tag`-prefixed reply contains the
character '→' before a following newline while the confirmation does not
contain '→' at all. (The remaining claimed kind, a clarification prompt,
does not exist in the code: `resolve_direction` is total and `app.py` has
no guidance message.) -/
theorem command_reply_outside_claimed_kinds_cex :
    (on_message (oracle_const "X") src_user "!lang ko-th" []).reply =
      lang_set_msg "ko" "th" ∧
    ¬ ((on_message (oracle_const "X") src_user "!lang ko-th" []).reply = "!lang ko-th" ∨
       (on_message (oracle_const "X") src_user "!lang ko-th" []).reply = err_msg ∨
       (∃ s t out, (on_message (oracle_const "X") src_user "!lang ko-th" []).reply =
         build_tag s t ++ "\n" ++ out)) := by
  have hr : (on_message (oracle_const "X") src_user "!lang ko-th" []).reply =
      lang_set_msg "ko" "th" := by decide
  refine ⟨hr, ?_⟩
  rw [hr]
  rintro (h | h | ⟨s, t, out, h⟩)
  · exact absurd h (by decide)
  · exact absurd h (by decide)
  · have h1 : '→' ∈ (lang_set_msg "ko" "th").data := by
      rw [h, str_data_append, str_data_append]
      exact List.mem_append.2 (Or.inl (List.mem_append.2 (Or.inl (tag_contains_arrow s t))))
    exact absurd h1 (by decide)

/-- C8 amended: every inbound message produces exactly one reply and it is
one of: a translated text with direction tag, the fixed apology message, or
a language-setting confirmation. (The code never stays silent — every
branch of `on_message` ends in a reply — and exceptions from the external
call are caught, so no stack trace reaches the user; but there is no cache,
no clarification prompt and no echo path, and the confirmation kind is
absent from the claim's list.) -/
theorem reply_classification (oai : Oracle) (src : EventSource)
    (text : String) (pairs : Pairs) :
    (∃ a b, (on_message oai src text pairs).reply = lang_set_msg a b) ∨
    (∃ s t out, (on_message oai src text pairs).reply = build_tag s t ++ "\n" ++ out) ∨
    (on_message oai src text pairs).reply = err_msg := by
  cases hp : parse_lang_command (py_strip text) with
  | some ab =>
    refine Or.inl ⟨ab.1, ab.2, ?_⟩
    rw [on_message_command oai src text pairs ab.1 ab.2 (by rw [hp])]
  | none =>
    rw [on_message_translation oai src text pairs hp]
    rcases run_translation_shape oai (py_strip text) _ _ _ with ⟨out, h⟩ | h
    · exact Or.inr (Or.inl ⟨_, _, out, h⟩)
    · exact Or.inr (Or.inr h)

/-- C9: a message matching the language-setting command pattern whose two
tokens normalize to known, distinct language codes makes the handler store
that ordered pair for the chat, reply with the confirmation message, and
perform no translation; a message the parser rejects (no pattern match,
unknown token, or equal tokens) falls through to the translation path,
invoking the translator once. -/
theorem lang_command_behavior (oai : Oracle) (src : EventSource)
    (text : String) (pairs : Pairs) (a b : String) :
    (parse_lang_command (py_strip text) = some (a, b) →
      (∃ a_raw b_raw, cmd_match (py_strip text) = some (a_raw, b_raw) ∧
        normalize_lang a_raw = some a ∧ normalize_lang b_raw = some b ∧ a ≠ b) ∧
      (on_message oai src text pairs).reply = lang_set_msg a b ∧
      (on_message oai src text pairs).pairs =
        set_pair pairs (get_chat_key src) a b ∧
      (on_message oai src text pairs).translatorCalls = 0) ∧
    (parse_lang_command (py_strip text) = none →
      (on_message oai src text pairs).translatorCalls = 1) := by
  constructor
  · intro hp
    refine ⟨?_, ?_, ?_, ?_⟩
    · unfold parse_lang_command at hp
      split at hp <;> try exact Option.noConfusion hp
      split at hp <;> try exact Option.noConfusion hp
      split at hp <;> try exact Option.noConfusion hp
      rename_i a_raw b_raw hm u v na nb hna hnb hne
      injection hp with h2
      injection h2 with ha hb
      subst ha; subst hb
      exact ⟨a_raw, b_raw, hm, hna, hnb, hne⟩
    · rw [on_message_command oai src text pairs a b hp]
    · rw [on_message_command oai src text pairs a b hp]
    · rw [on_message_command oai src text pairs a b hp]
  · intro hp
    rw [on_message_translation oai src text pairs hp]
    exact run_translation_calls ..

/-- Witness for C9 at the concrete command "!lang ko-th". -/
theorem lang_command_behavior_witness :
    parse_lang_command (py_strip "!lang ko-th") = some ("ko", "th") ∧
    ((on_message (oracle_const "X") src_user "!lang ko-th" []).reply =
       lang_set_msg "ko" "th" ∧
     (on_message (oracle_const "X") src_user "!lang ko-th" []).translatorCalls = 0) :=
  ⟨by decide,
    ⟨((lang_command_behavior (oracle_const "X") src_user "!lang ko-th" []
        "ko" "th").1 (by decide)).2.1,
     ((lang_command_behavior (oracle_const "X") src_user "!lang ko-th" []
        "ko" "th").1 (by decide)).2.2.2⟩⟩

end TranslatorBot
